import Mathlib

/-!
Verification of the change-detection and notification-fanout core of the
ScraperPotato job-scraper repository.

The detection pipeline of `src/worker.js` / the MailSlurp scraper
(`generateJobsHash`, `filterJobsByKeywords`, `shouldSendEmail`,
`checkForJobs`) and the identity-set pipeline plus notification fanout of
`enhanced-scraper.js` (`checkForNewJobs`, `sendNotifications` and the five
sink functions) are embedded as executable Lean functions.  The SHA-256
digest used by `generateJobsHash` (`crypto.createHash('sha256')` /
`crypto.subtle.digest('SHA-256', ...)`) is implemented in full, on `Nat`
with explicit reduction mod 2^32, so the digests are concrete bit-exact
values.  JavaScript strings are modelled as Lean `String`; the browser
APIs (puppeteer, fetch, nodemailer, MailSlurp, KV storage) are external
collaborators and enter the model only as oracles for their outcomes.
-/

namespace SHA256

/-- 2^32, the word modulus of SHA-256. -/
def M32 : Nat := 4294967296

/-- Addition of two 32-bit words. -/
def add32 (a b : Nat) : Nat := (a + b) % M32

/-- Right rotation of a 32-bit word by `n` bits. -/
def rotr (n x : Nat) : Nat := ((x >>> n) ||| (x <<< (32 - n))) % M32

/-- Logical right shift. -/
def shr (n x : Nat) : Nat := x >>> n

/-- Bitwise complement of a 32-bit word. -/
def bnot32 (x : Nat) : Nat := Nat.xor x 4294967295

/-- The SHA-256 `Ch` function. -/
def ch (x y z : Nat) : Nat := Nat.xor (Nat.land x y) (Nat.land (bnot32 x) z)

/-- The SHA-256 `Maj` function. -/
def maj (x y z : Nat) : Nat := Nat.xor (Nat.xor (Nat.land x y) (Nat.land x z)) (Nat.land y z)

/-- The SHA-256 `Σ0` function. -/
def bigS0 (x : Nat) : Nat := Nat.xor (Nat.xor (rotr 2 x) (rotr 13 x)) (rotr 22 x)

/-- The SHA-256 `Σ1` function. -/
def bigS1 (x : Nat) : Nat := Nat.xor (Nat.xor (rotr 6 x) (rotr 11 x)) (rotr 25 x)

/-- The SHA-256 `σ0` function. -/
def smallS0 (x : Nat) : Nat := Nat.xor (Nat.xor (rotr 7 x) (rotr 18 x)) (shr 3 x)

/-- The SHA-256 `σ1` function. -/
def smallS1 (x : Nat) : Nat := Nat.xor (Nat.xor (rotr 17 x) (rotr 19 x)) (shr 10 x)

/-- The 64 SHA-256 round constants. -/
def K : List Nat :=
  [1116352408, 1899447441, 3049323471, 3921009573,
   961987163, 1508970993, 2453635748, 2870763221,
   3624381080, 310598401, 607225278, 1426881987,
   1925078388, 2162078206, 2614888103, 3248222580,
   3835390401, 4022224774, 264347078, 604807628,
   770255983, 1249150122, 1555081692, 1996064986,
   2554220882, 2821834349, 2952996808, 3210313671,
   3336571891, 3584528711, 113926993, 338241895,
   666307205, 773529912, 1294757372, 1396182291,
   1695183700, 1986661051, 2177026350, 2456956037,
   2730485921, 2820302411, 3259730800, 3345764771,
   3516065817, 3600352804, 4094571909, 275423344,
   430227734, 506948616, 659060556, 883997877,
   958139571, 1322822218, 1537002063, 1747873779,
   1955562222, 2024104815, 2227730452, 2361852424,
   2428436474, 2756734187, 3204031479, 3329325298]

/-- Big-endian 64-bit encoding of the message bit length. -/
def lenBytes (n : Nat) : List Nat :=
  [(n >>> 56) % 256, (n >>> 48) % 256, (n >>> 40) % 256, (n >>> 32) % 256,
   (n >>> 24) % 256, (n >>> 16) % 256, (n >>> 8) % 256, n % 256]

/-- SHA-256 message padding to a multiple of 64 bytes. -/
def pad (msg : List Nat) : List Nat :=
  let len := msg.length
  let k := (119 - len % 64) % 64
  msg ++ [128] ++ List.replicate k 0 ++ lenBytes (len * 8)

/-- Group bytes into big-endian 32-bit words. -/
def bytesToWords : List Nat → List Nat
  | b0 :: b1 :: b2 :: b3 :: rest =>
      (b0 * 16777216 + b1 * 65536 + b2 * 256 + b3) :: bytesToWords rest
  | _ => []

/-- One message-schedule extension step. -/
def extendStep (w : List Nat) : List Nat :=
  let i := w.length
  let x := add32 (add32 (w.getD (i - 16) 0) (smallS0 (w.getD (i - 15) 0)))
             (add32 (w.getD (i - 7) 0) (smallS1 (w.getD (i - 2) 0)))
  w ++ [x]

/-- Iterate the message-schedule extension. -/
def extendW : Nat → List Nat → List Nat
  | 0, w => w
  | n + 1, w => extendW n (extendStep w)

/-- The 64-word message schedule of one block. -/
def schedule (block : List Nat) : List Nat := extendW 48 (bytesToWords block)

/-- The eight 32-bit working registers. -/
structure Regs where
  a : Nat
  b : Nat
  c : Nat
  d : Nat
  e : Nat
  f : Nat
  g : Nat
  h : Nat
deriving DecidableEq

/-- One SHA-256 compression round. -/
def round (st : Regs) (kw : Nat × Nat) : Regs :=
  let t1 := add32 (add32 st.h (bigS1 st.e)) (add32 (ch st.e st.f st.g) (add32 kw.1 kw.2))
  let t2 := add32 (bigS0 st.a) (maj st.a st.b st.c)
  ⟨add32 t1 t2, st.a, st.b, st.c, add32 st.d t1, st.e, st.f, st.g⟩

/-- The SHA-256 initial hash value. -/
def initH : Regs :=
  ⟨1779033703, 3144134277, 1013904242, 2773480762,
   1359893119, 2600822924, 528734635, 1541459225⟩

/-- Componentwise 32-bit addition of register files. -/
def addRegs (x y : Regs) : Regs :=
  ⟨add32 x.a y.a, add32 x.b y.b, add32 x.c y.c, add32 x.d y.d,
   add32 x.e y.e, add32 x.f y.f, add32 x.g y.g, add32 x.h y.h⟩

/-- Compression of one 64-byte block into the running hash value. -/
def compress (h0 : Regs) (block : List Nat) : Regs :=
  addRegs h0 ((K.zip (schedule block)).foldl round h0)

/-- Split a byte list into 64-byte blocks (fuelled for structural recursion). -/
def toBlocksAux : Nat → List Nat → List (List Nat)
  | 0, _ => []
  | _ + 1, [] => []
  | n + 1, a :: t => (a :: t.take 63) :: toBlocksAux n (t.drop 63)

/-- Split a byte list into 64-byte blocks. -/
def toBlocks (l : List Nat) : List (List Nat) := toBlocksAux l.length l

/-- Big-endian bytes of a 32-bit word. -/
def wordBytes (w : Nat) : List Nat := [(w >>> 24) % 256, (w >>> 16) % 256, (w >>> 8) % 256, w % 256]

/-- The 32 digest bytes of a final register file. -/
def digestBytes (st : Regs) : List Nat :=
  wordBytes st.a ++ wordBytes st.b ++ wordBytes st.c ++ wordBytes st.d ++
  wordBytes st.e ++ wordBytes st.f ++ wordBytes st.g ++ wordBytes st.h

/-- Lowercase hex digit, as produced by `digest('hex')` / `toString(16)`. -/
def hexDigit (n : Nat) : Char :=
  if n < 10 then Char.ofNat (48 + n) else Char.ofNat (87 + n)

/-- Two lowercase hex digits of one byte (`padStart(2, '0')`). -/
def byteHex (b : Nat) : List Char := [hexDigit (b / 16), hexDigit (b % 16)]

/-- UTF-8 encoding of one code point, as `TextEncoder` / Node produce. -/
def utf8Char (n : Nat) : List Nat :=
  if n < 128 then [n]
  else if n < 2048 then [192 + n / 64, 128 + n % 64]
  else if n < 65536 then [224 + n / 4096, 128 + (n / 64) % 64, 128 + n % 64]
  else [240 + n / 262144, 128 + (n / 4096) % 64, 128 + (n / 64) % 64, 128 + n % 64]

/-- UTF-8 bytes of a string. -/
def utf8Bytes (s : String) : List Nat := (s.data.map (fun c => utf8Char c.toNat)).flatten

/-- The lowercase-hex SHA-256 digest of a string, the value of
`crypto.createHash('sha256').update(s).digest('hex')`. -/
def sha256Hex (s : String) : String :=
  let bytes := digestBytes ((toBlocks (pad (utf8Bytes s))).foldl compress initH)
  String.mk ((bytes.map byteHex).flatten)

end SHA256

namespace Scraper

/-- One scraped job record, as produced by `scrapeJobs` /
`extractJobsFromHTML`: title, link, department, location and the
`scraped_at` timestamp string. -/
structure Job where
  title : String
  link : String
  department : String
  location : String
  scraped_at : String
deriving DecidableEq

/-- The canonical tuple kept by `generateJobsHash`'s `map`: the record
without its `scraped_at` timestamp, in the key order of the object
literal `{title, link, department, location}`. -/
structure CanonJob where
  title : String
  link : String
  department : String
  location : String
deriving DecidableEq

/-- The canonicalization step `job => ({title, link, department, location})`
of `generateJobsHash`. -/
def Job.canon (j : Job) : CanonJob := ⟨j.title, j.link, j.department, j.location⟩

/-- Three-way lexicographic comparison of character lists by code point.
This is NOT the comparator of the source: the source's
`a.link.localeCompare(b.link)` performs locale (ICU) collation, an
external collaborator the model keeps as a parameter.  `lexCmp` is the
literal reading of the spec's "lexicographic on the raw string", kept
for comparison with the program's collation. -/
def lexCmp : List Char → List Char → Ordering
  | [], [] => Ordering.eq
  | [], _ :: _ => Ordering.lt
  | _ :: _, [] => Ordering.gt
  | a :: as, b :: bs =>
      if a.toNat < b.toNat then Ordering.lt
      else if b.toNat < a.toNat then Ordering.gt
      else lexCmp as bs

/-- Raw code-point comparison of strings — the spec's words, not the
program's collator. -/
def rawLexColl (x y : String) : Ordering := lexCmp x.data y.data

/-- The sort relation the comparator `(a, b) => a.link.localeCompare(b.link)`
induces for a given collator `coll` (the external ICU collation): `a`
may precede `b` whenever the comparator is not positive. -/
def linkLe (coll : String → String → Ordering) (a b : CanonJob) : Prop :=
  coll a.link b.link ≠ Ordering.gt

instance (coll : String → String → Ordering) : DecidableRel (linkLe coll) :=
  fun a b => by unfold linkLe; exact inferInstance

/-- The strict companion of `linkLe`: the collator orders the links. -/
def linkLt (coll : String → String → Ordering) (a b : CanonJob) : Prop :=
  coll a.link b.link = Ordering.lt

/-- `Array.prototype.sort` with the link comparator: a stable sort by
`coll` on `link`, embedded as insertion sort (stable, sorted — the same
function JavaScript's spec-mandated stable sort computes for a
consistent comparator). -/
def sortByLink (coll : String → String → Ordering) (xs : List CanonJob) : List CanonJob :=
  List.insertionSort (linkLe coll) xs

/-- Lowercase a single character as `String.prototype.toLowerCase` does on
the ASCII range (the repo's data is ASCII). -/
def lowerChar (c : Char) : Char :=
  if 65 ≤ c.toNat ∧ c.toNat ≤ 90 then Char.ofNat (c.toNat + 32) else c

/-- `s.toLowerCase()` on ASCII strings. -/
def toLowerAscii (s : String) : String := String.mk (s.data.map lowerChar)

/-- A fragment of the root-locale collation that `localeCompare`
performs in the Node and Workers runtimes (ICU), modelled from its
documented behavior on ASCII text: letters collate case-insensitively
at primary strength — so "a" collates before "B" even though its code
point is larger — with lowercase preceding uppercase as the tiebreak.
It stands in for the external collator collaborator wherever a concrete
collation is needed. -/
def icuAsciiColl (x y : String) : Ordering :=
  match lexCmp (toLowerAscii x).data (toLowerAscii y).data with
  | Ordering.eq => lexCmp y.data x.data
  | o => o

/-- Does `needle` start `hay`? (helper for the substring test). -/
def leadsWith : List Char → List Char → Bool
  | [], _ => true
  | _ :: _, [] => false
  | a :: as, b :: bs => a = b && leadsWith as bs

/-- Does `needle` occur as a contiguous run inside `hay`? -/
def hasRun (needle : List Char) : List Char → Bool
  | [] => needle.isEmpty
  | c :: t => leadsWith needle (c :: t) || hasRun needle t

/-- `hay.includes(needle)` — JavaScript's substring containment test. -/
def strIncludes (hay needle : String) : Bool := hasRun needle.data hay.data

/-- JSON escaping of one character as `JSON.stringify` performs it. -/
def jsonEscapeChar (c : Char) : List Char :=
  if c = Char.ofNat 34 then [Char.ofNat 92, Char.ofNat 34]
  else if c = Char.ofNat 92 then [Char.ofNat 92, Char.ofNat 92]
  else if c = Char.ofNat 8 then [Char.ofNat 92, 'b']
  else if c = Char.ofNat 9 then [Char.ofNat 92, 't']
  else if c = Char.ofNat 10 then [Char.ofNat 92, 'n']
  else if c = Char.ofNat 12 then [Char.ofNat 92, 'f']
  else if c = Char.ofNat 13 then [Char.ofNat 92, 'r']
  else if c.toNat < 32 then
    [Char.ofNat 92, 'u', '0', '0', SHA256.hexDigit (c.toNat / 16), SHA256.hexDigit (c.toNat % 16)]
  else [c]

/-- `JSON.stringify` of a string value. -/
def jsonString (s : String) : String :=
  String.mk (Char.ofNat 34 :: (s.data.map jsonEscapeChar).flatten ++ [Char.ofNat 34])

/-- `JSON.stringify` of one canonical record object, with the property
order `title, link, department, location` of the object literal. -/
def canonJson (c : CanonJob) : String :=
  "\x7b\"title\":" ++ jsonString c.title ++ ",\"link\":" ++ jsonString c.link ++
  ",\"department\":" ++ jsonString c.department ++ ",\"location\":" ++ jsonString c.location ++
  "\x7d"

/-- `JSON.stringify` of an array given the serializations of its elements. -/
def jsonArray (xs : List String) : String := "[" ++ String.intercalate "," xs ++ "]"

/-- Embedding of `generateJobsHash` (src/worker.js lines 19-32 and the
MailSlurp scraper lines 35-44): canonicalize each record to
`(title, link, department, location)`, sort by `link` with the runtime's
`localeCompare` collation `coll` (an external collaborator, hence a
parameter), `JSON.stringify`, and take the SHA-256 hex digest. -/
def generateJobsHash (coll : String → String → Ordering) (jobs : List Job) : String :=
  SHA256.sha256Hex (jsonArray ((sortByLink coll (jobs.map Job.canon)).map canonJson))

/-- The digest the content-hash claim describes, its words taken
literally: the tuples sorted by `link` ascending in lexicographic order
on the raw string (code points).  A spec-side definition, to be compared
with the program's collation-parameterized `generateJobsHash`. -/
def specRawLexDigest (jobs : List Job) : String := generateJobsHash rawLexColl jobs

/-- The search text `` `${job.title} ${job.department}` `` of the keyword
filter — title and department joined by a single space. -/
def searchText (j : Job) : String := j.title ++ " " ++ j.department

/-- One record's keyword test: some keyword, lowercased, occurs in the
lowercased search text (`keywords.some(k => searchText.includes(k.toLowerCase()))`). -/
def jobMatches (keywords : List String) (j : Job) : Bool :=
  keywords.any (fun k => strIncludes (toLowerAscii (searchText j)) (toLowerAscii k))

/-- Embedding of `filterJobsByKeywords` (src/worker.js lines 107-116):
with no keywords every record passes, otherwise keep the records whose
search text contains some keyword case-insensitively. -/
def filterJobsByKeywords (jobs : List Job) (keywords : List String) : List Job :=
  if keywords.length = 0 then jobs
  else jobs.filter (jobMatches keywords)

/-- The result record of `shouldSendEmail` in the MailSlurp scraper. -/
structure EmailCheck where
  shouldSend : Bool
  matchingJobs : List Job
  reason : String
deriving DecidableEq

/-- Embedding of `shouldSendEmail` (MailSlurp scraper lines 204-219). -/
def shouldSendEmail (jobs : List Job) (keywords : List String) : EmailCheck :=
  if keywords.length = 0 then ⟨true, jobs, "no_keywords_filter"⟩
  else
    let matchingJobs := jobs.filter (jobMatches keywords)
    if matchingJobs.length = 0 then ⟨false, [], "no_keyword_matches"⟩
    else ⟨true, matchingJobs, "keyword_matches_found"⟩

/-- State-affecting events a hash-mode cycle performs, in order:
an email attempt via `sendJobAlert` (with the success flag of its
returned result — `sendJobAlert` catches internally and never throws),
a `saveHash` / `JOB_STORAGE.put('jobs-hash', ...)`, and a
`saveJobs` / `JOB_STORAGE.put('latest-jobs', ...)`. -/
inductive Event where
  | emailAttempt : List Job → Bool → Event
  | saveHash : String → Event
  | saveJobs : List Job → Event
deriving DecidableEq

/-- The outcome of the email collaborator, `sendJobAlert`'s
`result.success` (src/worker-email-service.js returns
`{success: false, error}` on failure instead of throwing). -/
structure EmailWorld where
  sendSuccess : Bool
deriving DecidableEq

/-- Result of one hash-mode cycle: the `success`/`message` return value of
`checkForJobs` in src/worker.js, the stored hash after the cycle
(`jobs-hash`), the stored job list after the cycle (`latest-jobs`, `none`
when left untouched), and the ordered list of state-affecting events. -/
structure HashCycleResult where
  success : Bool
  message : String
  hashStore : Option String
  jobsStore : Option (List Job)
  events : List Event
deriving DecidableEq

/-- Embedding of `checkForJobs` (src/worker.js lines 121-245; the
MailSlurp scraper's `checkForJobs`, lines 224-342, has the same
detection/persistence flow).  `previousHash` is the stored hash loaded
from KV (`none` on first run); `emailConfigured` is
`email.enabled && email.receiver`; `w` carries the email collaborator's
outcome. -/
def checkForJobs (coll : String → String → Ordering) (current : List Job)
    (previousHash : Option String) (keywords : List String)
    (emailConfigured : Bool) (w : EmailWorld) : HashCycleResult :=
  if current.length = 0 then
    ⟨false, "No jobs found", previousHash, none, []⟩
  else
    let currentHash := generateJobsHash coll current
    if previousHash = some currentHash then
      ⟨true, "No changes detected", previousHash, none, []⟩
    else
      let matchingJobs := filterJobsByKeywords current keywords
      if matchingJobs.length = 0 then
        ⟨true, "No matching jobs found", some currentHash, some current,
          [Event.saveHash currentHash, Event.saveJobs current]⟩
      else
        let emailEvents :=
          if emailConfigured then [Event.emailAttempt matchingJobs w.sendSuccess] else []
        ⟨true, "Jobs processed successfully", some currentHash, some current,
          emailEvents ++ [Event.saveHash currentHash, Event.saveJobs current]⟩

/-- The filter `currentJobs.filter(job => !previousJobs.has(job.link))` of
`checkForNewJobs` in enhanced-scraper.js. -/
def newJobsOf (current : List Job) (previousJobs : Finset String) : List Job :=
  current.filter (fun job => !(decide (job.link ∈ previousJobs)))

/-- Result of one identity-set cycle of enhanced-scraper.js: the
`previousJobs` set after the cycle and the list handed to
`sendNotifications` (`none` when no notification was dispatched). -/
structure SetCycleResult where
  state : Finset String
  notified : Option (List Job)
deriving DecidableEq

/-- Embedding of `checkForNewJobs` (enhanced-scraper.js lines 275-302):
empty scrape returns early; otherwise the records whose `link` is not in
`previousJobs` are notified and, if there are any, `previousJobs` is
replaced by the set of all current links. -/
def checkForNewJobs (current : List Job) (previousJobs : Finset String) : SetCycleResult :=
  if current.length = 0 then
    ⟨previousJobs, none⟩
  else
    let newJobs := newJobsOf current previousJobs
    if newJobs.length > 0 then
      ⟨(current.map Job.link).toFinset, some newJobs⟩
    else
      ⟨previousJobs, none⟩

/-- `config.email` of enhanced-scraper.js. -/
structure EmailCfg where
  enabled : Bool
  user : Option String
  pass : Option String
  toAddr : Option String
deriving DecidableEq

/-- A webhook-style sink config (`config.webhook`, `config.discord`). -/
structure UrlCfg where
  enabled : Bool
  url : Option String
deriving DecidableEq

/-- `config.telegram` of enhanced-scraper.js. -/
structure TelegramCfg where
  enabled : Bool
  botToken : Option String
  chatId : Option String
deriving DecidableEq

/-- `config.console` of enhanced-scraper.js (default enabled). -/
structure ConsoleCfg where
  enabled : Bool
deriving DecidableEq

/-- `config.fileLog` of enhanced-scraper.js. -/
structure FileLogCfg where
  enabled : Bool
  path : String
deriving DecidableEq

/-- The notification configuration of enhanced-scraper.js, read once at
startup. -/
structure Config where
  email : EmailCfg
  webhook : UrlCfg
  discord : UrlCfg
  telegram : TelegramCfg
  console : ConsoleCfg
  fileLog : FileLogCfg
deriving DecidableEq

/-- Outcome oracle for a sink whose only call is inside its own
`try/catch` (`transporter.sendMail`, `fs.appendFile`). -/
structure MailWorld where
  callResult : Except String Unit

/-- Outcome oracle for a fetch-based sink: the dynamic
`(await import('node-fetch'))` sits outside the `try` block and can
reject the sink's promise; the `fetch` call sits inside it. -/
structure FetchWorld where
  importResult : Except String Unit
  fetchResult : Except String Unit

/-- The external world of one fanout invocation: one oracle per
asynchronous sink, nothing shared between sinks. -/
structure World where
  email : MailWorld
  discord : FetchWorld
  telegram : FetchWorld
  webhook : FetchWorld
  fileLog : MailWorld

/-- The settlement of one promise as `Promise.allSettled` records it. -/
inductive Settled where
  | fulfilled : Settled
  | rejected : String → Settled
deriving DecidableEq

/-- A sink call's promise: fulfilled (`Except.ok`) or rejected with a
reason. -/
def settle : Except String Unit → Settled
  | .ok _ => Settled.fulfilled
  | .error e => Settled.rejected e

/-- Embedding of `sendEmailNotification` (enhanced-scraper.js lines
108-145): skips when the transporter was not initialized (enabled with
credentials) or no recipient is set; `sendMail` errors are caught and
logged, so the promise always fulfils. -/
def sendEmailNotification (cfg : EmailCfg) (w : MailWorld) (_newJobs : List Job) :
    Except String Unit :=
  if !(cfg.enabled && cfg.user.isSome && cfg.pass.isSome) || !cfg.toAddr.isSome then .ok ()
  else
    match w.callResult with
    | .ok _ => .ok ()
    | .error _ => .ok ()

/-- Embedding of `sendDiscordNotification` (enhanced-scraper.js lines
147-176): skips when disabled or without webhook URL; an
`import('node-fetch')` failure rejects the promise (it is outside the
`try`), a `fetch` failure is caught and logged. -/
def sendDiscordNotification (cfg : UrlCfg) (w : FetchWorld) (_newJobs : List Job) :
    Except String Unit :=
  if !(cfg.enabled && cfg.url.isSome) then .ok ()
  else
    match w.importResult with
    | .error e => .error e
    | .ok _ =>
      match w.fetchResult with
      | .ok _ => .ok ()
      | .error _ => .ok ()

/-- Embedding of `sendTelegramNotification` (enhanced-scraper.js lines
178-203), same failure shape as the Discord sink. -/
def sendTelegramNotification (cfg : TelegramCfg) (w : FetchWorld) (_newJobs : List Job) :
    Except String Unit :=
  if !(cfg.enabled && cfg.botToken.isSome && cfg.chatId.isSome) then .ok ()
  else
    match w.importResult with
    | .error e => .error e
    | .ok _ =>
      match w.fetchResult with
      | .ok _ => .ok ()
      | .error _ => .ok ()

/-- Embedding of `sendWebhookNotification` (enhanced-scraper.js lines
205-229), same failure shape as the Discord sink. -/
def sendWebhookNotification (cfg : UrlCfg) (w : FetchWorld) (_newJobs : List Job) :
    Except String Unit :=
  if !(cfg.enabled && cfg.url.isSome) then .ok ()
  else
    match w.importResult with
    | .error e => .error e
    | .ok _ =>
      match w.fetchResult with
      | .ok _ => .ok ()
      | .error _ => .ok ()

/-- Embedding of `logToFile` (enhanced-scraper.js lines 231-248):
`appendFile` errors are caught and logged, so the promise always
fulfils. -/
def logToFile (cfg : FileLogCfg) (w : MailWorld) (_newJobs : List Job) : Except String Unit :=
  if !cfg.enabled then .ok ()
  else
    match w.callResult with
    | .ok _ => .ok ()
    | .error _ => .ok ()

/-- The console lines printed synchronously by the console branch of
`sendNotifications`, one block per job. -/
def consoleLines (newJobs : List Job) : List String :=
  newJobs.map (fun j =>
    j.title ++ "\n   Department: " ++ j.department ++ "\n   Location: " ++ j.location ++
    "\n   Link: " ++ j.link)

/-- The email sink's contribution to the `notifications` array:
`if (config.email.enabled) notifications.push(sendEmailNotification(newJobs))`.
It reads only the email oracle. -/
def emailSeg (cfg : Config) (w : MailWorld) (newJobs : List Job) : List (Except String Unit) :=
  if cfg.email.enabled then [sendEmailNotification cfg.email w newJobs] else []

/-- The Discord sink's contribution to the `notifications` array. -/
def discordSeg (cfg : Config) (w : FetchWorld) (newJobs : List Job) : List (Except String Unit) :=
  if cfg.discord.enabled then [sendDiscordNotification cfg.discord w newJobs] else []

/-- The Telegram sink's contribution to the `notifications` array. -/
def telegramSeg (cfg : Config) (w : FetchWorld) (newJobs : List Job) : List (Except String Unit) :=
  if cfg.telegram.enabled then [sendTelegramNotification cfg.telegram w newJobs] else []

/-- The generic webhook sink's contribution to the `notifications`
array. -/
def webhookSeg (cfg : Config) (w : FetchWorld) (newJobs : List Job) : List (Except String Unit) :=
  if cfg.webhook.enabled then [sendWebhookNotification cfg.webhook w newJobs] else []

/-- The file-log sink's contribution to the `notifications` array. -/
def fileLogSeg (cfg : Config) (w : MailWorld) (newJobs : List Job) : List (Except String Unit) :=
  if cfg.fileLog.enabled then [logToFile cfg.fileLog w newJobs] else []

/-- The observable result of one `sendNotifications` run: the console
output of the synchronous console branch, and the settlement array that
`await Promise.allSettled(notifications)` evaluates to (one entry per
promise pushed onto `notifications`). -/
structure FanoutResult where
  consoleOut : List String
  settled : List Settled
deriving DecidableEq

/-- Embedding of `sendNotifications` (enhanced-scraper.js lines 250-273):
print to console when enabled, push one promise per enabled asynchronous
sink, and settle them all. -/
def sendNotifications (cfg : Config) (w : World) (newJobs : List Job) : FanoutResult :=
  let consoleOut := if cfg.console.enabled then consoleLines newJobs else []
  let notifications :=
    emailSeg cfg w.email newJobs ++ discordSeg cfg w.discord newJobs ++
    telegramSeg cfg w.telegram newJobs ++ webhookSeg cfg w.webhook newJobs ++
    fileLogSeg cfg w.fileLog newJobs
  ⟨consoleOut, notifications.map settle⟩

/-- The number of enabled sinks in a configuration, counting every
supported channel including the console sink. -/
def enabledSinkCount (cfg : Config) : Nat :=
  (if cfg.console.enabled then 1 else 0) + (if cfg.email.enabled then 1 else 0) +
  (if cfg.discord.enabled then 1 else 0) + (if cfg.telegram.enabled then 1 else 0) +
  (if cfg.webhook.enabled then 1 else 0) + (if cfg.fileLog.enabled then 1 else 0)

/-- The number of enabled asynchronous sinks — the sinks whose calls are
pushed onto the `notifications` array. -/
def asyncEnabledCount (cfg : Config) : Nat :=
  (if cfg.email.enabled then 1 else 0) + (if cfg.discord.enabled then 1 else 0) +
  (if cfg.telegram.enabled then 1 else 0) + (if cfg.webhook.enabled then 1 else 0) +
  (if cfg.fileLog.enabled then 1 else 0)

/-- One field of the Discord embed, built per job in
`sendDiscordNotification`. -/
structure DiscordField where
  name : String
  value : String
  inlineFlag : Bool
deriving DecidableEq

/-- The per-job field of the Discord embed. -/
def discordField (j : Job) : DiscordField :=
  ⟨j.title,
   "**Department:** " ++ j.department ++ "\n**Location:** " ++ j.location ++
   "\n[Apply Here](" ++ j.link ++ ")",
   false⟩

/-- The Discord embed object (without the wall-clock `timestamp`, which
comes from the external clock). -/
structure DiscordEmbed where
  title : String
  description : String
  color : Nat
  fields : List DiscordField
deriving DecidableEq

/-- The embed built by `sendDiscordNotification` (enhanced-scraper.js
lines 154-164): the description counts all of `newJobs`, the fields map
over `newJobs.slice(0, 10)`. -/
def discordEmbed (newJobs : List Job) : DiscordEmbed :=
  ⟨"🚀 New Airbnb Job Openings!",
   "Found " ++ toString newJobs.length ++ " new engineering position(s) in Bangalore",
   0xFF5A5F,
   (newJobs.take 10).map discordField⟩

/-- The per-job block of the Telegram message. -/
def telegramJobLine (j : Job) : String :=
  "📝 *" ++ j.title ++ "*\n🏢 " ++ j.department ++ "\n📍 " ++ j.location ++
  "\n🔗 [Apply Here](" ++ j.link ++ ")\n"

/-- The per-job blocks of the Telegram message, mapped over all of
`newJobs` (enhanced-scraper.js lines 185-186). -/
def telegramJobLines (newJobs : List Job) : List String := newJobs.map telegramJobLine

/-- The Telegram message text built by `sendTelegramNotification`. -/
def telegramMessage (newJobs : List Job) : String :=
  "🚀 *New Airbnb Job Openings!*\n\nFound " ++ toString newJobs.length ++
  " new engineering position(s) in Bangalore:\n\n" ++
  String.intercalate "\n" (telegramJobLines newJobs)

/-- The generic webhook JSON payload (enhanced-scraper.js lines 212-217,
without the wall-clock `timestamp`). -/
structure WebhookPayload where
  event : String
  jobs : List Job
  count : Nat
deriving DecidableEq

/-- The payload built by `sendWebhookNotification`: all of `newJobs`. -/
def webhookPayload (newJobs : List Job) : WebhookPayload :=
  ⟨"new_jobs", newJobs, newJobs.length⟩

/-- The per-job HTML card of the email body (enhanced-scraper.js lines
118-127). -/
def emailJobDiv (j : Job) : String :=
  "<div style=\"border: 1px solid #ddd; margin: 15px 0; padding: 15px; border-radius: 5px;\">" ++
  "<h3><a href=\"" ++ j.link ++ "\">" ++ j.title ++ "</a></h3>" ++
  "<p><strong>Department:</strong> " ++ j.department ++ "</p>" ++
  "<p><strong>Location:</strong> " ++ j.location ++ "</p></div>"

/-- The per-job HTML cards of the email body, mapped over all of
`newJobs`. -/
def emailHtmlJobs (newJobs : List Job) : List String := newJobs.map emailJobDiv

/-- The file-log entry (enhanced-scraper.js lines 236-240, without the
wall-clock `timestamp`): the count and all of `newJobs`. -/
structure FileLogEntry where
  count : Nat
  jobs : List Job
deriving DecidableEq

/-- The entry appended by `logToFile`: all of `newJobs`. -/
def fileLogEntry (newJobs : List Job) : FileLogEntry :=
  ⟨newJobs.length, newJobs⟩

/-- The spec-side selection predicate of the keyword-filter claim, read
literally: some keyword occurs case-insensitively as a substring of the
concatenation of `title` and `department` (no separator); an empty
keyword set selects everything.  Compared against the code's
`filterJobsByKeywords`, whose search text joins the two fields with a
space. -/
def specSelected (keywords : List String) (j : Job) : Bool :=
  keywords.isEmpty ||
    keywords.any (fun k =>
      strIncludes (toLowerAscii (j.title ++ j.department)) (toLowerAscii k))

/-- The spec-side selection predicate with the space-joined search text
actually used by the code. -/
def specSelectedSpaced (keywords : List String) (j : Job) : Bool :=
  keywords.isEmpty ||
    keywords.any (fun k =>
      strIncludes (toLowerAscii (j.title ++ " " ++ j.department)) (toLowerAscii k))

/-- Example record A of the identity-set walkthrough. -/
def jobA : Job := ⟨"Job A", "linkA", "Engineering", "Bangalore, India", "2025-01-01"⟩

/-- Example record B of the identity-set walkthrough. -/
def jobB : Job := ⟨"Job B", "linkB", "Engineering", "Bangalore, India", "2025-01-01"⟩

/-- Example record C of the identity-set walkthrough. -/
def jobC : Job := ⟨"Job C", "linkC", "Engineering", "Bangalore, India", "2025-01-02"⟩

/-- The "Backend Engineer" record of the keyword-filter walkthrough. -/
def backendJob : Job := ⟨"Backend Engineer", "link-be", "Engineering", "Bangalore, India", "t"⟩

/-- The "Designer" record of the keyword-filter walkthrough. -/
def designerJob : Job := ⟨"Designer", "link-de", "Design", "Bangalore, India", "t"⟩

/-- A record whose title ends in "r" while its department starts with
"d" (case-insensitively), so the keyword "rd" spans the boundary of the
unseparated concatenation but not of the space-joined search text. -/
def engineerDesignJob : Job := ⟨"Engineer", "link-ed", "Design", "Bangalore, India", "t"⟩

/-- A record whose link is the lowercase string "a": raw code-point
order puts it after link "B", the documented ICU collation before. -/
def jobLowerA : Job := ⟨"Job lower", "a", "Engineering", "Bangalore, India", "t"⟩

/-- A record whose link is the uppercase string "B". -/
def jobUpperB : Job := ⟨"Job upper", "B", "Engineering", "Bangalore, India", "t"⟩

/-- First of two records sharing one link but differing in title. -/
def dupLinkJob1 : Job := ⟨"Title X", "same-link", "Dept", "Loc", "t1"⟩

/-- Second of two records sharing one link but differing in title. -/
def dupLinkJob2 : Job := ⟨"Title Y", "same-link", "Dept", "Loc", "t2"⟩

/-- Twelve distinct records, to exercise the ten-field Discord cap. -/
def numberedJobs : List Job :=
  [⟨"T01", "l01", "D", "L", "t"⟩, ⟨"T02", "l02", "D", "L", "t"⟩,
   ⟨"T03", "l03", "D", "L", "t"⟩, ⟨"T04", "l04", "D", "L", "t"⟩,
   ⟨"T05", "l05", "D", "L", "t"⟩, ⟨"T06", "l06", "D", "L", "t"⟩,
   ⟨"T07", "l07", "D", "L", "t"⟩, ⟨"T08", "l08", "D", "L", "t"⟩,
   ⟨"T09", "l09", "D", "L", "t"⟩, ⟨"T10", "l10", "D", "L", "t"⟩,
   ⟨"T11", "l11", "D", "L", "t"⟩, ⟨"T12", "l12", "D", "L", "t"⟩]

/-- A configuration with exactly three enabled sinks — email, Discord and
Telegram, all with credentials — mirroring the spec's three-sink
walkthrough. -/
def cfg3 : Config :=
  ⟨⟨true, some "user@example.com", some "pass", some "to@example.com"⟩,
   ⟨false, none⟩,
   ⟨true, some "https://discord.example/webhook"⟩,
   ⟨true, some "bot-token", some "chat-id"⟩,
   ⟨false⟩,
   ⟨false, "./job-alerts.log"⟩⟩

/-- A configuration in which only the console sink is enabled. -/
def cfgConsoleOnly : Config :=
  ⟨⟨false, none, none, none⟩, ⟨false, none⟩, ⟨false, none⟩,
   ⟨false, none, none⟩, ⟨true⟩, ⟨false, "./job-alerts.log"⟩⟩

/-- A world in which every sink call succeeds. -/
def wAllOk : World :=
  ⟨⟨.ok ()⟩, ⟨.ok (), .ok ()⟩, ⟨.ok (), .ok ()⟩, ⟨.ok (), .ok ()⟩, ⟨.ok ()⟩⟩

/-- A world in which the second enabled sink of `cfg3` (Discord) always
fails — its module import rejects — while email and Telegram succeed. -/
def wDiscordFails : World :=
  ⟨⟨.ok ()⟩, ⟨.error "import failed", .error "fetch failed"⟩,
   ⟨.ok (), .ok ()⟩, ⟨.ok (), .ok ()⟩, ⟨.ok ()⟩⟩

end Scraper

namespace Scraper

theorem lexCmp_cons_ne_gt {a b : Char} {as bs : List Char} :
    lexCmp (a :: as) (b :: bs) ≠ Ordering.gt ↔
      a.toNat < b.toNat ∨ (a.toNat = b.toNat ∧ lexCmp as bs ≠ Ordering.gt) := by
  by_cases h1 : a.toNat < b.toNat
  · simp [lexCmp, h1]
  · by_cases h2 : b.toNat < a.toNat
    · simp [lexCmp, h1, h2]
      omega
    · have h3 : a.toNat = b.toNat := by omega
      simp [lexCmp, h1, h2, h3]

theorem lexCmp_swap : ∀ u v : List Char, lexCmp u v = (lexCmp v u).swap := by
  intro u
  induction u with
  | nil => intro v; cases v <;> rfl
  | cons a as ih =>
    intro v
    cases v with
    | nil => rfl
    | cons b bs =>
      by_cases h1 : a.toNat < b.toNat
      · have h2 : ¬ b.toNat < a.toNat := by omega
        simp [lexCmp, h1, h2, Ordering.swap]
      · by_cases h2 : b.toNat < a.toNat
        · simp [lexCmp, h1, h2, Ordering.swap]
        · simp [lexCmp, h1, h2, ih bs]

theorem lexCmp_le_trans :
    ∀ u v w : List Char, lexCmp u v ≠ Ordering.gt → lexCmp v w ≠ Ordering.gt →
      lexCmp u w ≠ Ordering.gt := by
  intro u
  induction u with
  | nil => intro v w _ _; cases w <;> simp [lexCmp]
  | cons a as ih =>
    intro v w huv hvw
    cases v with
    | nil => simp [lexCmp] at huv
    | cons b bs =>
      cases w with
      | nil => simp [lexCmp] at hvw
      | cons c cs =>
        rcases lexCmp_cons_ne_gt.mp huv with h1 | ⟨h1, h1'⟩ <;>
          rcases lexCmp_cons_ne_gt.mp hvw with h2 | ⟨h2, h2'⟩
        · exact lexCmp_cons_ne_gt.mpr (Or.inl (h1.trans h2))
        · exact lexCmp_cons_ne_gt.mpr (Or.inl (h2 ▸ h1))
        · exact lexCmp_cons_ne_gt.mpr (Or.inl (h1 ▸ h2))
        · exact lexCmp_cons_ne_gt.mpr (Or.inr ⟨h1.trans h2, ih bs cs h1' h2'⟩)

theorem rawLexColl_swap (x y : String) : rawLexColl x y = (rawLexColl y x).swap :=
  lexCmp_swap x.data y.data

theorem rawLexColl_le_trans (x y z : String) (hxy : rawLexColl x y ≠ Ordering.gt)
    (hyz : rawLexColl y z ≠ Ordering.gt) : rawLexColl x z ≠ Ordering.gt :=
  lexCmp_le_trans x.data y.data z.data hxy hyz

theorem ordering_lt_of_ne {o : Ordering} (h1 : o ≠ Ordering.gt) (h2 : o ≠ Ordering.eq) :
    o = Ordering.lt := by
  cases o <;> simp_all

theorem sortByLink_sorted (coll : String → String → Ordering)
    (hsymm : ∀ x y, coll x y = (coll y x).swap)
    (htrans : ∀ x y z, coll x y ≠ Ordering.gt → coll y z ≠ Ordering.gt →
      coll x z ≠ Ordering.gt)
    (xs : List CanonJob) : List.Sorted (linkLe coll) (sortByLink coll xs) :=
  letI : IsTotal CanonJob (linkLe coll) :=
    ⟨fun a b => by
      unfold linkLe
      by_cases h : coll a.link b.link = Ordering.gt
      · right
        rw [hsymm b.link a.link, h]
        simp [Ordering.swap]
      · left; exact h⟩
  letI : IsTrans CanonJob (linkLe coll) := ⟨fun a b c => htrans a.link b.link c.link⟩
  List.sorted_insertionSort (linkLe coll) xs

theorem sortByLink_perm (coll : String → String → Ordering) (xs : List CanonJob) :
    (sortByLink coll xs).Perm xs :=
  List.perm_insertionSort (linkLe coll) xs

theorem sortByLink_eq_of_perm (coll : String → String → Ordering)
    (hsymm : ∀ x y, coll x y = (coll y x).swap)
    (htrans : ∀ x y z, coll x y ≠ Ordering.gt → coll y z ≠ Ordering.gt →
      coll x z ≠ Ordering.gt)
    {xs ys : List CanonJob} (hperm : xs.Perm ys)
    (hnd : xs.Pairwise (fun a b => coll a.link b.link ≠ Ordering.eq)) :
    sortByLink coll xs = sortByLink coll ys := by
  have hsymR : Symmetric (fun a b : CanonJob => coll a.link b.link ≠ Ordering.eq) := by
    intro a b hab hc
    apply hab
    rw [hsymm a.link b.link, hc]
    rfl
  have p1 := sortByLink_perm coll xs
  have p2 := sortByLink_perm coll ys
  have n1 : (sortByLink coll xs).Pairwise (fun a b => coll a.link b.link ≠ Ordering.eq) :=
    (p1.pairwise_iff fun h => hsymR h).mpr hnd
  have n2 : (sortByLink coll ys).Pairwise (fun a b => coll a.link b.link ≠ Ordering.eq) :=
    (p2.pairwise_iff fun h => hsymR h).mpr ((hperm.pairwise_iff fun h => hsymR h).mp hnd)
  have s1 : List.Pairwise (linkLt coll) (sortByLink coll xs) :=
    ((sortByLink_sorted coll hsymm htrans xs).and n1).imp fun h =>
      ordering_lt_of_ne h.1 h.2
  have s2 : List.Pairwise (linkLt coll) (sortByLink coll ys) :=
    ((sortByLink_sorted coll hsymm htrans ys).and n2).imp fun h =>
      ordering_lt_of_ne h.1 h.2
  letI : IsAntisymm CanonJob (linkLt coll) :=
    ⟨fun a b hab hba => by
      unfold linkLt at hab hba
      rw [hsymm a.link b.link, hba] at hab
      exact absurd hab (by simp [Ordering.swap])⟩
  exact List.eq_of_perm_of_sorted (p1.trans (hperm.trans p2.symm)) s1 s2

theorem generateJobsHash_of_perm (coll : String → String → Ordering)
    (hsymm : ∀ x y, coll x y = (coll y x).swap)
    (htrans : ∀ x y z, coll x y ≠ Ordering.gt → coll y z ≠ Ordering.gt →
      coll x z ≠ Ordering.gt)
    {l1 l2 : List Job} (hperm : l1.Perm l2)
    (hnd : (l1.map Job.link).Pairwise (fun x y => coll x y ≠ Ordering.eq)) :
    generateJobsHash coll l1 = generateJobsHash coll l2 := by
  unfold generateJobsHash
  have hnd' : (l1.map Job.canon).Pairwise
      (fun a b => coll a.link b.link ≠ Ordering.eq) :=
    List.pairwise_map.mpr (List.pairwise_map.mp hnd)
  rw [sortByLink_eq_of_perm coll hsymm htrans (hperm.map Job.canon) hnd']

/-- C6: whenever a scrape cycle yields an empty current record sequence,
the previously persisted state is left unchanged, no notification is
dispatched, and the remainder of the cycle is skipped — in the hash-mode
cycle of src/worker.js (`checkForJobs` returns its "No jobs found"
failure with the stores untouched and no events) and in the identity-set
cycle of enhanced-scraper.js (`checkForNewJobs` returns early with
`previousJobs` untouched and nothing handed to `sendNotifications`). -/
theorem empty_scrape_guard :
    (∀ (coll : String → String → Ordering) (previousHash : Option String)
        (keywords : List String) (ec : Bool) (w : EmailWorld),
      checkForJobs coll [] previousHash keywords ec w =
        ⟨false, "No jobs found", previousHash, none, []⟩) ∧
    (∀ previousJobs : Finset String,
      checkForNewJobs [] previousJobs = ⟨previousJobs, none⟩) :=
  ⟨fun _ _ _ _ _ => rfl, fun _ => rfl⟩

/-- C2: in the identity-set strategy of enhanced-scraper.js, the records
to notify are exactly the records of `current` whose `link` is absent
from the previous identity set; when that subset is empty the previous
state is untouched and nothing is notified; otherwise the new state is
the identity set of all current links (full replacement).  In
particular, previous = A,B with current = [A, B, C] notifies exactly [C]
and stores A,B,C. -/
theorem identity_set_strategy :
    (∀ (current : List Job) (previous : Finset String),
      (∀ j : Job, j ∈ newJobsOf current previous ↔ j ∈ current ∧ j.link ∉ previous) ∧
      (newJobsOf current previous = [] →
        checkForNewJobs current previous = ⟨previous, none⟩) ∧
      (newJobsOf current previous ≠ [] →
        checkForNewJobs current previous =
          ⟨(current.map Job.link).toFinset, some (newJobsOf current previous)⟩)) ∧
    checkForNewJobs [jobA, jobB, jobC] {"linkA", "linkB"} =
      ⟨{"linkA", "linkB", "linkC"}, some [jobC]⟩ := by
  constructor
  · intro current previous
    refine ⟨fun j => ?_, fun hempty => ?_, fun hne => ?_⟩
    · simp [newJobsOf, List.mem_filter]
    · unfold checkForNewJobs
      by_cases hc : current.length = 0
      · simp [hc]
      · simp only [hc, if_false, hempty]
        simp
    · unfold checkForNewJobs
      have hc : current.length ≠ 0 := by
        intro h
        rw [List.length_eq_zero] at h
        subst h
        exact hne rfl
      have hl : (newJobsOf current previous).length > 0 :=
        List.length_pos.mpr hne
      simp only [hc, if_false, hl, if_true]
  · decide

/-- C2 witness: the walkthrough instance and an unchanged instance,
obtained from `identity_set_strategy` at concrete inputs. -/
theorem identity_set_strategy_witness :
    checkForNewJobs [jobC] {"linkC"} = ⟨{"linkC"}, none⟩ :=
  (identity_set_strategy.1 [jobC] {"linkC"}).2.1 (by decide)

set_option maxRecDepth 40000 in
/-- C1 counterexample: the claim's sort order, "lexicographic on the raw
string", is not the program's.  The code sorts with
`a.link.localeCompare(b.link)`, locale (ICU) collation, which collates
the link "a" before the link "B", while raw code-point order puts "B"
first.  On the two-record input with those links the program's digest
(the pipeline under the documented collation) differs from the digest
of the claim's raw-lexicographic pipeline. -/
theorem content_hash_counterexample :
    icuAsciiColl "a" "B" = Ordering.lt ∧
    rawLexColl "a" "B" = Ordering.gt ∧
    generateJobsHash icuAsciiColl [jobUpperB, jobLowerA] ≠
      specRawLexDigest [jobUpperB, jobLowerA] := by
  refine ⟨by decide, by decide, by decide⟩

/-- C1 amended: for a non-empty scrape, and whatever collation the
runtime's `localeCompare` implements (the sort order is locale
collation, not necessarily lexicographic on the raw string), the
hash-mode cycle reports "No changes detected" (the `Unchanged` outcome)
exactly when the stored digest equals the SHA-256 hex digest of the
deterministic JSON serialization of the current records canonicalized to
(title, link, department, location) and sorted by `link` under that
collation; the digest ignores the `scraped_at` timestamp entirely. -/
theorem content_hash_strategy (coll : String → String → Ordering)
    (current : List Job) (hne : current ≠ [])
    (previousHash : Option String) (keywords : List String)
    (ec : Bool) (w : EmailWorld) :
    ((checkForJobs coll current previousHash keywords ec w).message = "No changes detected" ↔
      previousHash =
        some (SHA256.sha256Hex (jsonArray
          ((sortByLink coll (current.map Job.canon)).map canonJson)))) ∧
    (∀ current' : List Job, current.map Job.canon = current'.map Job.canon →
      generateJobsHash coll current = generateJobsHash coll current') := by
  constructor
  · have hc : current.length ≠ 0 := by
      intro h; exact hne (List.length_eq_zero.mp h)
    unfold checkForJobs
    by_cases hp : previousHash = some (generateJobsHash coll current)
    · simp only [hc, if_false, hp, if_true]
      exact ⟨fun _ => rfl, fun _ => trivial⟩
    · simp only [hc, if_false, hp, if_false]
      by_cases hm : (filterJobsByKeywords current keywords).length = 0
      · simp only [hm, if_true]
        constructor
        · intro h; exact absurd h (by decide)
        · intro h; exact absurd h hp
      · simp only [hm, if_false]
        constructor
        · intro h; exact absurd h (by decide)
        · intro h; exact absurd h hp
  · intro current' hcanon
    unfold generateJobsHash
    rw [hcanon]

/-- C1 witness: under the modelled ICU collation, a concrete one-record
scrape whose stored digest matches the recomputed digest is reported
unchanged. -/
theorem content_hash_strategy_witness :
    (checkForJobs icuAsciiColl [jobA] (some (generateJobsHash icuAsciiColl [jobA]))
        ["Software"] true ⟨true⟩).message = "No changes detected" :=
  (content_hash_strategy icuAsciiColl [jobA] (by decide)
    (some (generateJobsHash icuAsciiColl [jobA])) ["Software"] true ⟨true⟩).1.mpr rfl

/-- C3 counterexample: the claim reads the search text as the plain
concatenation of `title` and `department`, but the code joins them with
a space.  For the record (title "Engineer", department "Design") and the
keyword "rd", the claim's predicate selects the record ("engineerdesign"
contains "rd") while `filterJobsByKeywords` and `shouldSendEmail` do not
("engineer design" does not contain "rd"), so the claimed
if-and-only-if fails at this input. -/
theorem keyword_filter_counterexample :
    specSelected ["rd"] engineerDesignJob = true ∧
    filterJobsByKeywords [engineerDesignJob] ["rd"] = [] ∧
    shouldSendEmail [engineerDesignJob] ["rd"] =
      ⟨false, [], "no_keyword_matches"⟩ := by
  refine ⟨?_, ?_, ?_⟩ <;> decide

/-- C3 amended: a record is selected iff at least one keyword occurs
case-insensitively as a substring of the concatenation of `title`, a
single space, and `department`; an empty or absent keyword set selects
every record.  The walkthrough holds: keywords ["Backend"] select only
the Backend Engineer record, and the empty keyword set selects both. -/
theorem keyword_filter_amended :
    (∀ (jobs : List Job) (keywords : List String) (j : Job),
      j ∈ filterJobsByKeywords jobs keywords ↔
        j ∈ jobs ∧ specSelectedSpaced keywords j = true) ∧
    filterJobsByKeywords [backendJob, designerJob] ["Backend"] = [backendJob] ∧
    filterJobsByKeywords [backendJob, designerJob] [] = [backendJob, designerJob] := by
  refine ⟨fun jobs keywords j => ?_, by decide, by decide⟩
  cases keywords with
  | nil => simp [filterJobsByKeywords, specSelectedSpaced]
  | cons k ks =>
    simp only [filterJobsByKeywords, List.length_cons]
    rw [if_neg (by simp)]
    rw [List.mem_filter]
    constructor
    · rintro ⟨hj, hm⟩
      refine ⟨hj, ?_⟩
      simp only [specSelectedSpaced, List.isEmpty_cons, Bool.false_or]
      exact hm
    · rintro ⟨hj, hm⟩
      refine ⟨hj, ?_⟩
      simp only [specSelectedSpaced, List.isEmpty_cons, Bool.false_or] at hm
      exact hm

/-- C7: in the hash-mode cycle, when the digest of the current records
differs from the stored digest but no record passes the keyword filter,
the new digest and the current record set are still persisted while no
email attempt is made — the cycle returns "No matching jobs found" with
exactly the two save events. -/
theorem changed_no_match (coll : String → String → Ordering)
    (current : List Job) (previousHash : Option String)
    (keywords : List String) (ec : Bool) (w : EmailWorld)
    (hne : current ≠ [])
    (hch : previousHash ≠ some (generateJobsHash coll current))
    (hmatch : filterJobsByKeywords current keywords = []) :
    checkForJobs coll current previousHash keywords ec w =
      ⟨true, "No matching jobs found", some (generateJobsHash coll current), some current,
        [Event.saveHash (generateJobsHash coll current), Event.saveJobs current]⟩ := by
  have hc : current.length ≠ 0 := by
    intro h; exact hne (List.length_eq_zero.mp h)
  unfold checkForJobs
  simp only [hc, if_false, hch, hmatch, List.length_nil, if_true]

/-- C7 witness: a first run (no stored digest) scraping one record that
matches no keyword persists the digest and record set without any email
attempt. -/
theorem changed_no_match_witness :
    checkForJobs icuAsciiColl [designerJob] none ["Backend"] true ⟨false⟩ =
      ⟨true, "No matching jobs found", some (generateJobsHash icuAsciiColl [designerJob]),
        some [designerJob],
        [Event.saveHash (generateJobsHash icuAsciiColl [designerJob]),
         Event.saveJobs [designerJob]]⟩ :=
  changed_no_match icuAsciiColl [designerJob] none ["Backend"] true ⟨false⟩
    (by decide) (by simp) (by decide)

/-- C9 (implicit): in the hash-mode flow with email configured, once a
change is detected and keyword-matching records exist, the new digest
and record set are persisted after the email attempt regardless of the
attempt's success flag, and a later cycle scraping the identical record
set against the persisted digest reports "No changes detected" and
performs no events — the failed notification is never retried. -/
theorem persist_after_notification (coll : String → String → Ordering)
    (current : List Job) (previousHash : Option String)
    (keywords : List String) (b b' : Bool)
    (hne : current ≠ [])
    (hch : previousHash ≠ some (generateJobsHash coll current))
    (hmatch : filterJobsByKeywords current keywords ≠ []) :
    checkForJobs coll current previousHash keywords true ⟨b⟩ =
      ⟨true, "Jobs processed successfully", some (generateJobsHash coll current),
        some current,
        [Event.emailAttempt (filterJobsByKeywords current keywords) b,
         Event.saveHash (generateJobsHash coll current), Event.saveJobs current]⟩ ∧
    checkForJobs coll current (some (generateJobsHash coll current)) keywords true ⟨b'⟩ =
      ⟨true, "No changes detected", some (generateJobsHash coll current), none, []⟩ := by
  have hc : current.length ≠ 0 := by
    intro h; exact hne (List.length_eq_zero.mp h)
  have hm : (filterJobsByKeywords current keywords).length ≠ 0 := by
    intro h; exact hmatch (List.length_eq_zero.mp h)
  constructor
  · unfold checkForJobs
    simp only [hc, if_false, hch, hm, if_true, List.singleton_append]
  · unfold checkForJobs
    simp only [hc, if_false, if_pos rfl, if_true]

/-- C9 witness: a failed email attempt (success flag false) over a
matching record still ends with the digest and record set persisted
after the attempt, and the identical next cycle is unchanged with no
events. -/
theorem persist_after_notification_witness :
    checkForJobs icuAsciiColl [backendJob] none ["Backend"] true ⟨false⟩ =
      ⟨true, "Jobs processed successfully", some (generateJobsHash icuAsciiColl [backendJob]),
        some [backendJob],
        [Event.emailAttempt [backendJob] false,
         Event.saveHash (generateJobsHash icuAsciiColl [backendJob]),
         Event.saveJobs [backendJob]]⟩ ∧
    checkForJobs icuAsciiColl [backendJob] (some (generateJobsHash icuAsciiColl [backendJob]))
        ["Backend"] true ⟨true⟩ =
      ⟨true, "No changes detected", some (generateJobsHash icuAsciiColl [backendJob]),
        none, []⟩ := by
  have h := persist_after_notification icuAsciiColl [backendJob] none ["Backend"] false true
    (by decide) (by simp) (by decide)
  have hfilter : filterJobsByKeywords [backendJob] ["Backend"] = [backendJob] := by decide
  constructor
  · rw [← hfilter]; exact h.1
  · exact h.2

theorem settled_length (cfg : Config) (w : World) (newJobs : List Job) :
    (sendNotifications cfg w newJobs).settled.length = asyncEnabledCount cfg := by
  simp only [sendNotifications, emailSeg, discordSeg, telegramSeg, webhookSeg, fileLogSeg,
    asyncEnabledCount, List.map_append, List.length_append]
  by_cases h1 : cfg.email.enabled <;> by_cases h2 : cfg.discord.enabled <;>
    by_cases h3 : cfg.telegram.enabled <;> by_cases h4 : cfg.webhook.enabled <;>
    by_cases h5 : cfg.fileLog.enabled <;> simp [h1, h2, h3, h4, h5]

/-- C4: the settlement array of `sendNotifications` decomposes into one
segment per sink, and each segment is a function of that sink's own
configuration and oracle alone — so no sink's failure, rejection or
latency can alter any other sink's invocation or outcome; the array's
length is the same whatever the sinks' outcomes (all enabled sinks are
settled, never short-circuited), and the fanout is a total function
whose failures are `rejected` entries, never an exception.  In the
three-sink walkthrough (email, Discord, Telegram enabled, Discord
always failing at its module import), email and Telegram still settle
fulfilled and
Discord settles rejected. -/
theorem fanout_isolation :
    (∀ (cfg : Config) (w : World) (newJobs : List Job),
      (sendNotifications cfg w newJobs).settled =
        (emailSeg cfg w.email newJobs).map settle ++
        (discordSeg cfg w.discord newJobs).map settle ++
        (telegramSeg cfg w.telegram newJobs).map settle ++
        (webhookSeg cfg w.webhook newJobs).map settle ++
        (fileLogSeg cfg w.fileLog newJobs).map settle) ∧
    (∀ (cfg : Config) (w w' : World) (newJobs : List Job),
      (sendNotifications cfg w newJobs).settled.length =
        (sendNotifications cfg w' newJobs).settled.length) ∧
    sendNotifications cfg3 wDiscordFails [jobA] =
      ⟨[], [Settled.fulfilled, Settled.rejected "import failed", Settled.fulfilled]⟩ := by
  refine ⟨fun cfg w newJobs => ?_, fun cfg w w' newJobs => ?_, by decide⟩
  · simp [sendNotifications, List.map_append]
  · rw [settled_length, settled_length]

/-- C5 counterexample: the console channel is one of the supported,
independently enabled sinks, yet it is handled synchronously and never
contributes an entry to the settlement collection.  With only the
console sink enabled, one sink is enabled and delivers output, but the
settlement collection is empty — so the collection does not contain one
entry per enabled sink. -/
theorem fanout_completeness_counterexample :
    enabledSinkCount cfgConsoleOnly = 1 ∧
    (sendNotifications cfgConsoleOnly wAllOk [jobA]).consoleOut ≠ [] ∧
    (sendNotifications cfgConsoleOnly wAllOk [jobA]).settled.length = 0 := by
  refine ⟨?_, ?_, ?_⟩ <;> decide

/-- C5 amended: each enabled asynchronous sink (email, Discord,
Telegram, generic webhook, file log) produces exactly one settlement
entry and each disabled sink produces none, so the settlement
collection's size equals the number of enabled asynchronous sinks; the
console sink is rendered synchronously beforehand and contributes no
entry; failure is data (a `rejected` entry), not a thrown error. -/
theorem fanout_completeness_amended :
    ∀ (cfg : Config) (w : World) (newJobs : List Job),
      (sendNotifications cfg w newJobs).settled.length = asyncEnabledCount cfg ∧
      (emailSeg cfg w.email newJobs).length = (if cfg.email.enabled then 1 else 0) ∧
      (discordSeg cfg w.discord newJobs).length = (if cfg.discord.enabled then 1 else 0) ∧
      (telegramSeg cfg w.telegram newJobs).length = (if cfg.telegram.enabled then 1 else 0) ∧
      (webhookSeg cfg w.webhook newJobs).length = (if cfg.webhook.enabled then 1 else 0) ∧
      (fileLogSeg cfg w.fileLog newJobs).length = (if cfg.fileLog.enabled then 1 else 0) := by
  intro cfg w newJobs
  refine ⟨settled_length cfg w newJobs, ?_, ?_, ?_, ?_, ?_⟩ <;>
    first
      | (simp only [emailSeg]; split <;> simp)
      | (simp only [discordSeg]; split <;> simp)
      | (simp only [telegramSeg]; split <;> simp)
      | (simp only [webhookSeg]; split <;> simp)
      | (simp only [fileLogSeg]; split <;> simp)

set_option maxRecDepth 40000 in
/-- C8 counterexample: two records sharing one `link` but differing in
title.  Every comparator ties on an identical pair of links, the sort
is stable and compares only `link`, so under the modelled ICU collation
the two input orders serialize differently and their SHA-256 digests
differ — the digest is not invariant under this permutation. -/
theorem digest_reorder_counterexample :
    List.Perm [dupLinkJob1, dupLinkJob2] [dupLinkJob2, dupLinkJob1] ∧
    icuAsciiColl dupLinkJob1.link dupLinkJob2.link = Ordering.eq ∧
    generateJobsHash icuAsciiColl [dupLinkJob1, dupLinkJob2] ≠
      generateJobsHash icuAsciiColl [dupLinkJob2, dupLinkJob1] := by
  refine ⟨by decide, by decide, by decide⟩

/-- C8 amended: for every consistent collation (sign-antisymmetric and
transitive, as `localeCompare` is) and every record sequence whose
links are pairwise strictly ordered by that collation — the comparator
returns nonzero on each pair of links, so no duplicate links and no
collation-equivalent links — every permutation of the sequence yields
the same content-hash digest: the canonical sort then neutralizes input
order. -/
theorem digest_reorder_amended (coll : String → String → Ordering)
    (hsymm : ∀ x y, coll x y = (coll y x).swap)
    (htrans : ∀ x y z, coll x y ≠ Ordering.gt → coll y z ≠ Ordering.gt →
      coll x z ≠ Ordering.gt)
    (l1 l2 : List Job) (hperm : l1.Perm l2)
    (hnd : (l1.map Job.link).Pairwise (fun x y => coll x y ≠ Ordering.eq)) :
    generateJobsHash coll l1 = generateJobsHash coll l2 :=
  generateJobsHash_of_perm coll hsymm htrans hperm hnd

/-- C8 amended witness: under the raw-lexicographic collation (one
consistent collation), a concrete two-record permutation with strictly
ordered links hashes identically. -/
theorem digest_reorder_amended_witness :
    generateJobsHash rawLexColl [jobA, jobB] = generateJobsHash rawLexColl [jobB, jobA] :=
  digest_reorder_amended rawLexColl rawLexColl_swap rawLexColl_le_trans
    [jobA, jobB] [jobB, jobA] (by decide) (by decide)

/-- C10 (implicit): the Discord embed's fields render only the first ten
records of the to-notify list while its description reports the full
count; the other sinks (generic webhook, file log, Telegram, email,
console) render the complete list.  With twelve records the embed keeps
ten fields yet announces twelve. -/
theorem discord_truncation :
    (∀ newJobs : List Job,
      (discordEmbed newJobs).fields = (newJobs.take 10).map discordField ∧
      (discordEmbed newJobs).fields.length = min 10 newJobs.length ∧
      (discordEmbed newJobs).description =
        "Found " ++ toString newJobs.length ++ " new engineering position(s) in Bangalore" ∧
      (webhookPayload newJobs).jobs = newJobs ∧
      (fileLogEntry newJobs).jobs = newJobs ∧
      (telegramJobLines newJobs).length = newJobs.length ∧
      (emailHtmlJobs newJobs).length = newJobs.length ∧
      (consoleLines newJobs).length = newJobs.length) ∧
    numberedJobs.length = 12 ∧
    (discordEmbed numberedJobs).fields.length = 10 ∧
    (discordEmbed numberedJobs).description =
      "Found 12 new engineering position(s) in Bangalore" := by
  refine ⟨fun newJobs => ?_, by decide, by decide, by decide⟩
  refine ⟨rfl, ?_, rfl, rfl, rfl, ?_, ?_, ?_⟩
  · simp [discordEmbed, List.length_take]
  · simp [telegramJobLines]
  · simp [emailHtmlJobs]
  · simp [consoleLines]

end Scraper
